import Mathlib

/-!
Shallow embedding of `tidal_async/api.py` (a client-side object model for the
Tidal music catalog): the entity model with identity-keyed memoization, lazy
field access over server dictionaries, paginated collection traversal, and the
audio-quality negotiation in `Track.get_file_url`.

Python values coming off the wire are modelled by `JVal` (decoded JSON),
Python exceptions by `PyErr`, and fallible Python expressions by
`Except PyErr`.  Collaborators that live in this repository but outside
`api.py` (`tidal_async/utils.py`: `snake_to_camel`, `id_from_url`,
`parse_title`, the `cacheable` single-flight decorator) are modelled from the
specification and marked as such in their doc comments.
-/

namespace Tidal

/-- Decoded JSON value, as produced by `resp.json()` / `json.loads`. -/
inductive JVal where
  | null : JVal
  | bool (b : Bool) : JVal
  | num (n : Int) : JVal
  | str (s : String) : JVal
  | arr (xs : List JVal) : JVal
  | obj (fields : List (String × JVal)) : JVal

/-- Python exception kinds raised by the code under `src/tidal_async`.
`keyError` carries the missing dictionary key, `attributeError` the missing
attribute name (exception messages are elided). -/
inductive PyErr where
  | keyError (key : String) : PyErr
  | attributeError (name : String) : PyErr
  | notImplementedError : PyErr
  | typeError : PyErr
  | valueError : PyErr
  | indexError : PyErr
  | insufficientAudioQuality : PyErr
deriving DecidableEq, Repr

/-- A server field mapping (`self.dict` of a `TidalObject`): a decoded JSON
object represented as an association list in server order. -/
abbrev Dict : Type := List (String × JVal)

/-- Python `d[k]` key lookup on an association list (first match wins;
decoded JSON objects have unique keys). -/
def dlookup : Dict → String → Option JVal
  | [], _ => none
  | (k, v) :: rest, key => if k = key then some v else dlookup rest key

/-- Python subscript `v[k]` on a decoded JSON value: key lookup when `v` is an
object (raising `KeyError` on a miss), `TypeError` otherwise. -/
def jGet (v : JVal) (k : String) : Except PyErr JVal :=
  match v with
  | .obj fields => match dlookup fields k with
    | some x => .ok x
    | none => .error (.keyError k)
  | _ => .error .typeError

/-- Uppercase the first character of a string (Python `str.capitalize`-style
head casing, only ASCII letters matter for field names). -/
def capitalizeHead (s : String) : String :=
  match s.data with
  | [] => ""
  | c :: rest => String.mk (c.toUpper :: rest)

/-- Split a character list on a separator character (Python `str.split(sep)`:
adjacent separators and boundary separators produce empty pieces). -/
def splitChar (sep : Char) : List Char → List (List Char)
  | [] => [[]]
  | c :: rest =>
    if c = sep then [] :: splitChar sep rest
    else
      match splitChar sep rest with
      | [] => [[c]]
      | h :: t => (c :: h) :: t

/-- Modelled from the spec: case-conversion helper `snake_to_camel` of
`tidal_async/utils.py`, which is not under `src/`.  Spec §6: snake_case to
camelCase, used for every field lookup: the first underscore-separated word is
kept, subsequent words are capitalized and joined. -/
def snakeToCamel (s : String) : String :=
  match (splitChar '_' s.data).map String.mk with
  | [] => ""
  | h :: t => h ++ String.join (t.map capitalizeHead)

/-- `TidalObject.__getitem__` (api.py line 88): `self.dict[snake_to_camel(item)]`,
raising `KeyError` with the camel-cased key on a miss. -/
def getItemF (d : Dict) (item : String) : Except PyErr JVal :=
  match dlookup d (snakeToCamel item) with
  | some v => .ok v
  | none => .error (.keyError (snakeToCamel item))

/-- `TidalObject.__contains__` (api.py line 91): `snake_to_camel(item) in self.dict`. -/
def containsF (d : Dict) (item : String) : Bool :=
  (dlookup d (snakeToCamel item)).isSome

/-- `TidalObject.__getattr__` (api.py line 94): `return self[attr]`.  This is
the dynamic fallback reached when no real attribute or property matches; any
exception from the subscript propagates unchanged. -/
def getAttrF (d : Dict) (attr : String) : Except PyErr JVal :=
  getItemF d attr

/-- The `AudioQuality` enumeration (api.py lines 21-25), members in
declaration order. -/
inductive AudioQuality where
  | Normal : AudioQuality
  | High : AudioQuality
  | HiFi : AudioQuality
  | Master : AudioQuality
deriving DecidableEq, Repr, Fintype

/-- Wire value of each `AudioQuality` member (api.py lines 22-25). -/
def AudioQuality.value : AudioQuality → String
  | .Normal => "LOW"
  | .High => "HIGH"
  | .HiFi => "LOSSLESS"
  | .Master => "HI_RES"

/-- Python enum lookup by value, `AudioQuality(s)`: the member whose wire
value is `s`, or a `ValueError` (`none`) when no member matches. -/
def AudioQuality.fromValue : String → Option AudioQuality
  | "LOW" => some .Normal
  | "HIGH" => some .High
  | "LOSSLESS" => some .HiFi
  | "HI_RES" => some .Master
  | _ => none

/-- Position of each member in declaration order. -/
def AudioQuality.idx : AudioQuality → Nat
  | .Normal => 0
  | .High => 1
  | .HiFi => 2
  | .Master => 3

/-- The strict order on audio-quality tiers used by `quality < required_quality`
(api.py line 168): the `generic.AudioQuality` base orders members by
declaration position (spec §3: Normal < High < HiFi < Master). -/
def AudioQuality.lt (a b : AudioQuality) : Bool :=
  a.idx < b.idx

/-- A `TidalObject` instance as the entity model sees it: its field mapping
and the name of its identifier field (api.py lines 45-48; the session
reference is threaded separately where it matters). -/
structure Entity where
  dict : Dict
  idFieldName : String

/-- Runtime description of a `TidalObject` class as used by `from_id` /
`from_url`: whether the receiver is the abstract base `TidalObject` itself
(the `cls is TidalObject` check), the optional `urlname` class field, and the
default `id_field_name` of its constructor. -/
structure ClassDesc where
  isBase : Bool
  urlname : Option String
  idFieldName : String
deriving DecidableEq, Repr

/-- The abstract base `TidalObject` (api.py line 44): no `urlname`. -/
def tidalObjectDesc : ClassDesc := ⟨true, none, "id"⟩

/-- Class `Track` (api.py lines 99-100): `urlname = "track"`. -/
def trackDesc : ClassDesc := ⟨false, some "track", "id"⟩

/-- Class `Playlist` (api.py lines 211-212, 228-232): `urlname = "playlist"`,
identifier field `uuid`. -/
def playlistDesc : ClassDesc := ⟨false, some "playlist", "uuid"⟩

/-- Class `Album` (api.py lines 262-263): `urlname = "album"`. -/
def albumDesc : ClassDesc := ⟨false, some "album", "id"⟩

/-- Body of `TidalObject.from_id` (api.py lines 61-68), cache layer aside:
refuse the abstract base, otherwise construct the entity and perform its one
reload fetch (`fetch id` models `reload_info`'s decoded response body). -/
def fromIdF (c : ClassDesc) (fetch : String → Dict) (id : String) :
    Except PyErr Entity :=
  if c.isBase then .error .notImplementedError
  else .ok ⟨fetch id, c.idFieldName⟩

/-- First segment that follows an occurrence of the token in a segment list. -/
def segmentAfter : List String → String → Except PyErr String
  | [], _ => .error .valueError
  | [_], _ => .error .valueError
  | a :: b :: rest, t =>
    if a = t then .ok b else segmentAfter (b :: rest) t

/-- Modelled from the spec: the URL-to-id extractor `id_from_url` of
`tidal_async/utils.py`, which is not under `src/`.  Spec §6: given a URL and a
route-name token, returns the embedded identifier or fails if the URL does not
match: the path segment following the route name. -/
def idFromUrlF (url urlname : String) : Except PyErr String :=
  segmentAfter ((splitChar '/' url.data).map String.mk) urlname

/-- `TidalObject.from_url` (api.py lines 71-80): refuse the abstract base;
with a declared `urlname` extract the id from the URL and delegate to
`from_id`; without one raise `NotImplementedError`. -/
def fromUrlF (c : ClassDesc) (fetch : String → Dict) (url : String) :
    Except PyErr Entity :=
  if c.isBase then .error .notImplementedError
  else
    match c.urlname with
    | some u => (idFromUrlF url u).bind (fromIdF c fetch)
    | none => .error .notImplementedError

/-! ### Identity cache (single-flight memoization of `from_id`)

`from_id` is wrapped in `lru_cache` over the `cacheable` decorator
(api.py lines 58-60).  `cacheable` lives in `tidal_async/utils.py`, which is
not under `src/`; the registry below is modelled from the spec (§4.1): a
process-wide table keyed by the full argument key, holding the in-flight or
completed entity, with the entry inserted before the reload fetch completes so
that a second caller for the same key awaits the same single operation. -/

/-- Memoization key of `from_id`: entity kind, session, id, id field name. -/
structure CacheKey where
  kind : ClassDesc
  sess : Nat
  id : String
  idFieldName : String
deriving DecidableEq, Repr

/-- Whether a cached resolution has completed its reload fetch yet. -/
inductive CacheStatus where
  | pending : CacheStatus
  | done : CacheStatus
deriving DecidableEq, Repr

/-- Modelled from the spec: state of the identity cache (§4.1).  `entries`
maps keys to the instance reference of the single in-flight-or-completed
resolution; `fetches` counts reload fetches issued; `nextRef` allocates fresh
instance references. -/
structure CacheState where
  entries : List (CacheKey × Nat × CacheStatus)
  fetches : Nat
  nextRef : Nat
deriving DecidableEq, Repr

/-- Lookup of a key in an identity-cache entry list. -/
def cacheFind (k : CacheKey) :
    List (CacheKey × Nat × CacheStatus) → Option (Nat × CacheStatus)
  | [] => none
  | (k2, r, st) :: rest => if k2 = k then some (r, st) else cacheFind k rest

/-- Lookup of a key in the identity cache. -/
def cacheLookup (s : CacheState) (k : CacheKey) : Option (Nat × CacheStatus) :=
  cacheFind k s.entries

/-- Modelled from the spec: the memoized `from_id` up to its first suspension
point (§4.1).  A key seen before — even one whose reload is still pending —
returns the stored instance with no new fetch; an unseen key registers a new
pending instance and issues exactly one reload fetch. -/
def fromIdCached (s : CacheState) (k : CacheKey) : Nat × CacheState :=
  match cacheLookup s k with
  | some (r, _) => (r, s)
  | none =>
    (s.nextRef, ⟨(k, s.nextRef, .pending) :: s.entries, s.fetches + 1, s.nextRef + 1⟩)

/-- Mark every entry for a key as done in an entry list. -/
def cacheMarkDone (k : CacheKey) :
    List (CacheKey × Nat × CacheStatus) → List (CacheKey × Nat × CacheStatus)
  | [] => []
  | (k2, r, st) :: rest =>
    if k2 = k then (k2, r, .done) :: cacheMarkDone k rest
    else (k2, r, st) :: cacheMarkDone k rest

/-- Modelled from the spec: completion of the reload fetch for a key marks
its cache entry done; the entry itself (and its instance) is unchanged. -/
def fetchFinish (s : CacheState) (k : CacheKey) : CacheState :=
  ⟨cacheMarkDone k s.entries, s.fetches, s.nextRef⟩

/-! ### Base64 and JSON decoding

`Track._stream_manifest` (api.py lines 150-152) runs
`json.loads(base64.b64decode(data["manifest"]))`.  Both decoders are Python
standard-library collaborators; they are embedded here directly: standard
base64 with `=` padding (non-alphabet input characters are discarded, as
`b64decode` does without validation), and a JSON reader covering the wire
subset this service emits (objects, arrays, strings with single-character
escapes, integers, literals; `\uXXXX` escapes and fractional numbers are not
modelled, and byte input is decoded as ASCII). -/

/-- Value of a character in the standard base64 alphabet. -/
def b64val (c : Char) : Option Nat :=
  if 'A' ≤ c ∧ c ≤ 'Z' then some (c.toNat - 65)
  else if 'a' ≤ c ∧ c ≤ 'z' then some (c.toNat - 97 + 26)
  else if '0' ≤ c ∧ c ≤ '9' then some (c.toNat - 48 + 52)
  else if c = '+' then some 62
  else if c = '/' then some 63
  else none

/-- Decode base64 quartets into bytes; the final quartet may carry one or two
`=` padding characters. -/
def b64chunks : List Char → Option (List Nat)
  | [] => some []
  | c1 :: c2 :: c3 :: c4 :: rest =>
    match b64val c1, b64val c2 with
    | some v1, some v2 =>
      let b1 := v1 * 4 + v2 / 16
      if c3 = '=' then
        if c4 = '=' ∧ rest.isEmpty then some [b1] else none
      else
        match b64val c3 with
        | some v3 =>
          let b2 := v2 % 16 * 16 + v3 / 4
          if c4 = '=' then
            if rest.isEmpty then some [b1, b2] else none
          else
            match b64val c4 with
            | some v4 => (b64chunks rest).map (fun bs => b1 :: b2 :: (v3 % 4 * 64 + v4) :: bs)
            | none => none
        | none => none
    | _, _ => none
  | _ => none

/-- `base64.b64decode` on a string: discard characters outside the alphabet
and padding, then decode; `none` models `binascii.Error` on bad padding. -/
def b64decode (s : String) : Option (List Nat) :=
  b64chunks (s.data.filter (fun c => (b64val c).isSome || c = '='))

/-- Decode a byte list as text (ASCII subset of the UTF-8 decoding
`json.loads` applies to byte input). -/
def bytesToChars : List Nat → Option (List Char)
  | [] => some []
  | b :: bs =>
    if b < 128 then (bytesToChars bs).map (fun cs => Char.ofNat b :: cs)
    else none

/-- JSON insignificant whitespace. -/
def isJWs (c : Char) : Bool :=
  c.toNat = 32 || c.toNat = 9 || c.toNat = 10 || c.toNat = 13

/-- Drop leading JSON whitespace. -/
def skipWs (cs : List Char) : List Char :=
  cs.dropWhile isJWs

/-- Translation of a single-character JSON string escape. -/
def escChar (e : Char) : Option Char :=
  if e.toNat = 34 ∨ e.toNat = 92 ∨ e = '/' then some e
  else if e = 'n' then some (Char.ofNat 10)
  else if e = 't' then some (Char.ofNat 9)
  else if e = 'r' then some (Char.ofNat 13)
  else if e = 'b' then some (Char.ofNat 8)
  else if e = 'f' then some (Char.ofNat 12)
  else none

/-- Parse the remainder of a JSON string after its opening quote, returning
the decoded string and the input after the closing quote. -/
def parseStrRest : List Char → Option (String × List Char)
  | [] => none
  | c :: rest =>
    if c.toNat = 34 then some ("", rest)
    else if c.toNat = 92 then
      match rest with
      | [] => none
      | e :: rest2 =>
        match escChar e with
        | some ec => (parseStrRest rest2).map (fun p => (String.mk (ec :: p.1.data), p.2))
        | none => none
    else (parseStrRest rest).map (fun p => (String.mk (c :: p.1.data), p.2))

/-- Numeric value of a digit list. -/
def digitsToNat (ds : List Char) : Nat :=
  ds.foldl (fun a c => a * 10 + (c.toNat - 48)) 0

/-- Parse a JSON integer (optional minus sign and digits). -/
def parseNum : List Char → Option (JVal × List Char)
  | [] => none
  | c :: rest =>
    if c = '-' then
      let ds := rest.takeWhile Char.isDigit
      if ds.isEmpty then none
      else some (.num (-(digitsToNat ds : Int)), rest.dropWhile Char.isDigit)
    else
      let ds := (c :: rest).takeWhile Char.isDigit
      if ds.isEmpty then none
      else some (.num (digitsToNat ds : Int), (c :: rest).dropWhile Char.isDigit)

mutual

/-- Parse one JSON value (fuel-indexed recursive descent). -/
def parseVal : Nat → List Char → Option (JVal × List Char)
  | 0, _ => none
  | f + 1, cs =>
    match skipWs cs with
    | [] => none
    | c :: rest =>
      if c.toNat = 123 then
        match skipWs rest with
        | c2 :: r2 =>
          if c2.toNat = 125 then some (.obj [], r2)
          else (parseObjItems f (skipWs rest)).map (fun p => (.obj p.1, p.2))
        | [] => none
      else if c.toNat = 91 then
        match skipWs rest with
        | c2 :: r2 =>
          if c2.toNat = 93 then some (.arr [], r2)
          else (parseArrItems f (skipWs rest)).map (fun p => (.arr p.1, p.2))
        | [] => none
      else if c.toNat = 34 then
        (parseStrRest rest).map (fun p => (.str p.1, p.2))
      else if c = 't' then
        match rest with
        | 'r' :: 'u' :: 'e' :: r => some (.bool true, r)
        | _ => none
      else if c = 'f' then
        match rest with
        | 'a' :: 'l' :: 's' :: 'e' :: r => some (.bool false, r)
        | _ => none
      else if c = 'n' then
        match rest with
        | 'u' :: 'l' :: 'l' :: r => some (.null, r)
        | _ => none
      else parseNum (c :: rest)

/-- Parse the non-empty element list of a JSON array and its closing bracket. -/
def parseArrItems : Nat → List Char → Option (List JVal × List Char)
  | 0, _ => none
  | f + 1, cs =>
    match parseVal f cs with
    | none => none
    | some (v, r) =>
      match skipWs r with
      | [] => none
      | c :: r2 =>
        if c = ',' then (parseArrItems f r2).map (fun p => (v :: p.1, p.2))
        else if c.toNat = 93 then some ([v], r2)
        else none

/-- Parse the non-empty member list of a JSON object and its closing brace. -/
def parseObjItems : Nat → List Char → Option (List (String × JVal) × List Char)
  | 0, _ => none
  | f + 1, cs =>
    match skipWs cs with
    | [] => none
    | c :: rest =>
      if c.toNat = 34 then
        match parseStrRest rest with
        | none => none
        | some (k, r) =>
          match skipWs r with
          | [] => none
          | c2 :: r2 =>
            if c2 = ':' then
              match parseVal f r2 with
              | none => none
              | some (v, r3) =>
                match skipWs r3 with
                | [] => none
                | c3 :: r4 =>
                  if c3 = ',' then
                    (parseObjItems f r4).map (fun p => ((k, v) :: p.1, p.2))
                  else if c3.toNat = 125 then some ([(k, v)], r4)
                  else none
            else none
      else none

end

/-- `json.loads` on decoded bytes: parse one value and require only
whitespace to remain. -/
def jsonLoads (bs : List Nat) : Option JVal :=
  match bytesToChars bs with
  | none => none
  | some cs =>
    match parseVal (2 * cs.length + 2) cs with
    | some (v, r) => if (skipWs r).isEmpty then some v else none
    | none => none

/-! ### Quality negotiator (`Track.get_file_url`) -/

/-- Query parameters of the one GET that `Track._playbackinfopostpaywall`
issues (api.py lines 139-146). -/
structure PlaybackRequest where
  playbackmode : String
  assetpresentation : String
  audioquality : String
deriving DecidableEq, Repr

/-- The manifest-decoding step of `Track._stream_manifest` (api.py line 152):
`json.loads(base64.b64decode(data["manifest"]))`.  A non-string manifest field
is a `TypeError` (as in `b64decode`), undecodable input a `ValueError`. -/
def streamManifestDecode (data : Dict) : Except PyErr JVal :=
  match dlookup data "manifest" with
  | none => .error (.keyError "manifest")
  | some (.str m) =>
    match b64decode m with
    | none => .error .valueError
    | some bytes =>
      match jsonLoads bytes with
      | none => .error .valueError
      | some v => .ok v
  | some _ => .error .typeError

/-- `manifest["urls"][0]` (api.py line 171): subscript then first element,
with Python's `IndexError` on an empty list and `TypeError` on a non-list. -/
def manifestFirstUrl (manifest : JVal) : Except PyErr JVal :=
  match jGet manifest "urls" with
  | .error e => .error e
  | .ok (.arr (u :: _)) => .ok u
  | .ok (.arr []) => .error .indexError
  | .ok _ => .error .typeError

/-- `Track.get_file_url` (api.py lines 154-171).  `server q` is the decoded
body the session returns for the playback-info GET at tier `q`; the second
component lists the playback-info requests issued, in order (the straight-line
body issues exactly the one GET of `_playbackinfopostpaywall`).  Both optional
tiers default to the session's configured tiers; after decoding the manifest,
the delivered tier is parsed and compared against the required tier, a
shortfall raising `InsufficientAudioQuality`, and otherwise the first manifest
URL is returned. -/
def getFileUrl (sessPreferred sessRequired : AudioQuality)
    (requiredQ preferredQ : Option AudioQuality)
    (server : AudioQuality → Dict) : Except PyErr JVal × List PlaybackRequest :=
  let preferred := preferredQ.getD sessPreferred
  let required := requiredQ.getD sessRequired
  let req : PlaybackRequest := ⟨"STREAM", "FULL", preferred.value⟩
  let data := server preferred
  let result : Except PyErr JVal :=
    match streamManifestDecode data with
    | .error e => .error e
    | .ok manifest =>
      match dlookup data "audioQuality" with
      | none => .error (.keyError "audioQuality")
      | some (.str s) =>
        match AudioQuality.fromValue s with
        | none => .error .valueError
        | some quality =>
          if AudioQuality.lt quality required then .error .insufficientAudioQuality
          else manifestFirstUrl manifest
      | some _ => .error .valueError
  (result, [req])

/-! ### Paginated collection traversal (`Playlist.tracks` / `Album.tracks`)

Both generators (api.py lines 239-259 and 286-306) run the same loop over
their child-listing endpoint; only the URL path differs.  `server o` is the
decoded body returned for the GET at offset `o` (the `limit` query parameter
is the fixed `per_request_limit` of the call, so it is folded into `server`).
The loop is embedded with explicit fuel: `none` means the fuel ran out with
the loop still going, so a traversal is non-terminating exactly when every
fuel yields `none`. -/

/-- Decoded body of one child-listing page: the fields the loop reads
(`items`, `offset`, `limit`, `totalNumberOfItems`). -/
structure PageResp where
  items : List Dict
  offset : Int
  limit : Int
  totalNumberOfItems : Int

/-- `Track(self.sess, track)` on an embedded item (api.py line 259): a Track
entity built directly from the item's fields, default identifier field. -/
def mkTrack (d : Dict) : Entity :=
  ⟨d, "id"⟩

/-- The `while offset < total_items` loop body (api.py lines 243-259): fetch
the page at `offset`, take `total` from the response's reported count and the
next `offset` from the response's own `offset + limit`, and yield one Track
per item. -/
def tracksGo (server : Int → PageResp) : Nat → Int → Int → Option (List Entity)
  | 0, offset, totalItems => if offset < totalItems then none else some []
  | f + 1, offset, totalItems =>
    if offset < totalItems then
      let data := server offset
      (tracksGo server f (data.offset + data.limit) data.totalNumberOfItems).map
        (fun rest => data.items.map mkTrack ++ rest)
    else some []

/-- Offsets of the listing GETs the loop issues, in order (same control flow
as `tracksGo`). -/
def tracksRequests (server : Int → PageResp) : Nat → Int → Int → List Int
  | 0, _, _ => []
  | f + 1, offset, totalItems =>
    if offset < totalItems then
      let data := server offset
      offset :: tracksRequests server f (data.offset + data.limit) data.totalNumberOfItems
    else []

/-- A full `tracks()` call (api.py lines 239-241): a fresh traversal starting
at `offset = 0` with the sentinel `total_items = 1` forcing the first fetch. -/
def tracksF (server : Int → PageResp) (fuel : Nat) : Option (List Entity) :=
  tracksGo server fuel 0 1

/-! ### `Track.get_metadata` (api.py lines 173-208) -/

/-- Python truthiness of a decoded JSON value (`None`, `0`, empty string and
empty containers are falsy). -/
def truthy : JVal → Bool
  | .null => false
  | .bool b => b
  | .num n => n != 0
  | .str s => !s.isEmpty
  | .arr xs => !xs.isEmpty
  | .obj fs => !fs.isEmpty

/-- Decimal digits of a natural number (fuel-indexed so it reduces in the
kernel). -/
def natDigits : Nat → Nat → List Char
  | 0, _ => []
  | f + 1, n =>
    if n < 10 then [Char.ofNat (48 + n)]
    else natDigits f (n / 10) ++ [Char.ofNat (48 + n % 10)]

/-- Python `str` on a decoded JSON value, for the fields `get_metadata`
stringifies; rendering of composite values is not exercised by the model. -/
def pyStr : JVal → String
  | .null => "None"
  | .bool true => "True"
  | .bool false => "False"
  | .num n =>
    if n < 0 then "-" ++ String.mk (natDigits ((-n).toNat + 1) (-n).toNat)
    else String.mk (natDigits (n.toNat + 1) n.toNat)
  | .str s => s
  | .arr _ => "[...]"
  | .obj _ => "\x7b...\x7d"

/-- Modelled from the spec: the title-parsing helper `parse_title` of
`tidal_async/utils.py`, which is not under `src/`.  Spec §6: given an entity,
returns a display title string; modelled as the entity's `title` field
rendered as a string (annotation logic is external). -/
def parseTitleM (d : Dict) : Except PyErr JVal :=
  (getItemF d "title").map (fun t => .str (pyStr t))

/-- Evaluation of a guard `name in entity and entity.name` (api.py lines
197-205): the field's value when it is present, in the camel-cased key sense,
and truthy; `none` otherwise. -/
def condTag (d : Dict) (name : String) : Option JVal :=
  match dlookup d (snakeToCamel name) with
  | some v => if truthy v then some v else none
  | none => none

/-- Values of the nine mandatory tag entries of `get_metadata` (api.py lines
181-194), in evaluation order. -/
structure MetaBase where
  artistName : JVal
  titleV : JVal
  albumArtistName : JVal
  albumTitleV : JVal
  yearV : JVal
  volV : JVal
  volTotV : JVal
  trackNumV : JVal
  trackTotV : JVal

/-- The fallible part of `get_metadata`'s tag construction: the attribute and
subscript accesses feeding the dict literal (api.py lines 181-194), with
`album` the already-reloaded album mapping.  `self.artists` is evaluated as
`parse_title`'s argument; a miss on any access propagates. -/
def metaMandatory (track albumFull : Dict) : Except PyErr MetaBase := do
  let artistObj ← getItemF track "artist"
  let artistName ← jGet artistObj "name"
  let _ ← getItemF track "artists"
  let titleV ← parseTitleM track
  let albumArtistObj ← getItemF albumFull "artist"
  let albumArtistName ← jGet albumArtistObj "name"
  let albumTitleV ← parseTitleM albumFull
  let yearV ← getItemF albumFull "year"
  let volV ← getItemF track "volumeNumber"
  let volTotV ← getItemF albumFull "numberOfVolumes"
  let trackNumV ← getItemF track "trackNumber"
  let trackTotV ← getItemF albumFull "numberOfTracks"
  pure ⟨artistName, titleV, albumArtistName, albumTitleV, .str (pyStr yearV),
    .str (pyStr volV), .str (pyStr volTotV), .str (pyStr trackNumV),
    .str (pyStr trackTotV)⟩

/-- The mandatory tag entries as an association list, in source order. -/
def metaBaseList (b : MetaBase) : List (String × JVal) :=
  [("artist", b.artistName), ("title", b.titleV),
   ("albumartist", b.albumArtistName), ("album", b.albumTitleV),
   ("date", b.yearV), ("discnumber", b.volV), ("disctotal", b.volTotV),
   ("tracknumber", b.trackNumV), ("tracktotal", b.trackTotV)]

/-- The optional tag entries of `get_metadata` (api.py lines 196-206):
copyright from the track falling back to the album when the track's is absent
or falsy, then `isrc` from the track and `upc` from the album, each only when
present and truthy. -/
def metaOptional (track albumFull : Dict) : List (String × JVal) :=
  (match condTag track "copyright" with
   | some v => [("copyright", v)]
   | none =>
     match condTag albumFull "copyright" with
     | some v => [("copyright", v)]
     | none => []) ++
  (match condTag track "isrc" with
   | some v => [("isrc", v)]
   | none => []) ++
  (match condTag albumFull "upc" with
   | some v => [("upc", v)]
   | none => [])

/-- `Track.get_metadata` (api.py lines 173-208) given the track's mapping and
the reloaded album's mapping: the mandatory entries (any access miss
propagating) followed by the guarded optional entries. -/
def getMetadata (track albumFull : Dict) : Except PyErr (List (String × JVal)) :=
  (metaMandatory track albumFull).map
    (fun b => metaBaseList b ++ metaOptional track albumFull)

/-- The copyright entry the amended claim predicts: the track's own value when
present and truthy, else the album's when present and truthy, else absent. -/
def copyrightExpected (track albumFull : Dict) : Option JVal :=
  match condTag track "copyright" with
  | some v => some v
  | none => condTag albumFull "copyright"

/-- String projection of a tag entry (used to state concrete counterexamples
without equality on `JVal`). -/
def tagStr (tags : List (String × JVal)) (k : String) : Option String :=
  match dlookup tags k with
  | some (.str s) => some s
  | _ => none

/-- Whether a fallible access failed specifically with a missing-attribute
(`AttributeError`) condition. -/
def isMissingAttrErr (e : Except PyErr JVal) : Bool :=
  match e with
  | .error (.attributeError _) => true
  | _ => false

/-! ### Object identity and attribute rebinding (`Track.album`)

`Track.album` (api.py lines 123-125) builds `Album(self.sess, self["album"])`:
a fresh Album instance whose `dict` attribute aliases the album sub-document
embedded in the track's mapping.  `Album.reload_info` (api.py lines 272-280)
executes `self.dict = await resp.json()`: it allocates fresh objects for the
decoded response and rebinds the instance's `dict` attribute — it does not
mutate the previously referenced dictionary in place.  To distinguish
rebinding from in-place mutation the embedding gives dictionaries explicit
heap references. -/

/-- Heap-level field value: scalars inline, nested objects by reference. -/
inductive HVal where
  | null : HVal
  | bool (b : Bool) : HVal
  | num (n : Int) : HVal
  | str (s : String) : HVal
  | ref (r : Nat) : HVal
deriving DecidableEq, Repr

/-- A heap-resident dictionary: fields with heap-level values. -/
abbrev HDict : Type := List (String × HVal)

/-- Key lookup in a heap-resident dictionary. -/
def hlookup : HDict → String → Option HVal
  | [], _ => none
  | (k, v) :: rest, key => if k = key then some v else hlookup rest key

/-- State of the objects relevant to `Track.album`: the heap of dictionary
objects (a reference is an index; allocation appends), the track instance's
`dict` attribute, and the `dict` attribute of each Album instance obtained
from the `album` property so far, in creation order. -/
structure PyState where
  heap : List HDict
  trackRef : Nat
  albumRefs : List Nat
deriving DecidableEq, Repr

/-- One access to the `Track.album` property (api.py lines 123-125): read the
embedded `album` sub-document reference out of the track's mapping and create
a new Album instance whose `dict` attribute is that same reference.  Returns
the new instance's index. -/
def trackAlbumAccess (s : PyState) : Option (Nat × PyState) :=
  match s.heap[s.trackRef]? with
  | none => none
  | some d =>
    match hlookup d (snakeToCamel "album") with
    | some (.ref r) => some (s.albumRefs.length, ⟨s.heap, s.trackRef, s.albumRefs ++ [r]⟩)
    | _ => none

/-- `Album.reload_info` on Album instance `i` (api.py lines 272-280):
`self.dict = await resp.json()` allocates the decoded response as a fresh heap
object and rebinds instance `i`'s `dict` attribute to it; no existing heap
object is written. -/
def albumReloadHeap (s : PyState) (i : Nat) (resp : HDict) : PyState :=
  ⟨s.heap ++ [resp], s.trackRef, s.albumRefs.set i s.heap.length⟩

end Tidal

/-! ## Helper lemmas -/

namespace Tidal

/-- Subscripting a decoded JSON value never raises `InsufficientAudioQuality`. -/
theorem jGet_ne_iaq (v : JVal) (k : String) :
    jGet v k ≠ .error .insufficientAudioQuality := by
  unfold jGet
  split
  next fs =>
    split
    · simp
    · simp
  next => simp

/-- Extracting `manifest["urls"][0]` never raises `InsufficientAudioQuality`. -/
theorem manifestFirstUrl_ne_iaq (mv : JVal) :
    manifestFirstUrl mv ≠ .error .insufficientAudioQuality := by
  unfold manifestFirstUrl
  split
  next e hj =>
    intro h
    injection h with h2
    subst h2
    exact jGet_ne_iaq mv "urls" hj
  all_goals simp

/-- Enum lookup by wire value is a retraction of `value`. -/
theorem fromValue_value (q : AudioQuality) : AudioQuality.fromValue q.value = some q := by
  cases q <;> rfl

/-- When the playback-info response decodes and reports a delivered tier,
`get_file_url` yields `InsufficientAudioQuality` exactly when the delivered
tier sits strictly below the required tier. -/
theorem getFileUrl_iaq_iff (sp sr : AudioQuality) (rq pq : Option AudioQuality)
    (server : AudioQuality → Dict) (q : AudioQuality) (mv : JVal)
    (hm : streamManifestDecode (server (pq.getD sp)) = .ok mv)
    (hq : dlookup (server (pq.getD sp)) "audioQuality" = some (.str q.value)) :
    ((getFileUrl sp sr rq pq server).1 = .error .insufficientAudioQuality
      ↔ AudioQuality.lt q (rq.getD sr) = true) := by
  unfold getFileUrl
  dsimp only
  rw [hm, hq]
  dsimp only
  rw [fromValue_value]
  by_cases hlt : AudioQuality.lt q (rq.getD sr) = true
  · simp [hlt]
  · simp only [Bool.not_eq_true] at hlt
    simp [hlt, manifestFirstUrl_ne_iaq mv]

/-- Association lookup distributes over list append. -/
theorem dlookup_append (xs ys : List (String × JVal)) (k : String) :
    dlookup (xs ++ ys) k =
      match dlookup xs k with
      | some v => some v
      | none => dlookup ys k := by
  induction xs with
  | nil => rfl
  | cons p rest ih =>
    cases p with
    | mk a v =>
      simp only [List.cons_append, List.append_eq, dlookup]
      by_cases hak : a = k
      · rw [if_pos hak, if_pos hak]
      · rw [if_neg hak, if_neg hak, ih]

/-- With a consistently echoing server of `items.length` items in pages of
`P`, the loop from any page-aligned offset yields exactly the remaining
items. -/
theorem tracksGo_slices (items : List Dict) (P : Nat) (server : Int → PageResp)
    (hP : 1 ≤ P)
    (hserver : ∀ o : Nat, server o = ⟨(items.drop o).take P, o, P, items.length⟩) :
    ∀ (f : Nat) (o : Nat), items.length ≤ o + f →
      tracksGo server f o items.length = some ((items.drop o).map mkTrack) := by
  intro f
  induction f with
  | zero =>
    intro o hle
    simp only [tracksGo]
    rw [if_neg (by omega), List.drop_eq_nil_of_le (by omega)]
    rfl
  | succ f ih =>
    intro o hle
    by_cases ho : o < items.length
    · simp only [tracksGo]
      rw [if_pos (by exact_mod_cast ho), hserver o]
      rw [show ((o : Int) + (P : Int)) = ((o + P : Nat) : Int) by push_cast; ring]
      rw [ih (o + P) (by omega)]
      simp only [Option.map_some']
      rw [← List.drop_drop P o items, ← List.map_append, List.take_append_drop]
    · simp only [tracksGo]
      rw [if_neg (by omega), List.drop_eq_nil_of_le (by omega)]
      rfl

/-- A bounded reported total and a strictly advancing echoed window force the
loop to finish within `B + 1` pages. -/
theorem tracksGo_isSome (server : Int → PageResp) (B : Int)
    (htot : ∀ o : Int, (server o).totalNumberOfItems ≤ B)
    (hinc : ∀ o : Int, o + 1 ≤ (server o).offset + (server o).limit) :
    ∀ (f : Nat) (o t : Int), t ≤ B → B + 1 ≤ o + f →
      (tracksGo server f o t).isSome = true := by
  intro f
  induction f with
  | zero =>
    intro o t ht hf
    simp only [tracksGo]
    rw [if_neg (by omega)]
    rfl
  | succ f ih =>
    intro o t ht hf
    by_cases ho : o < t
    · simp only [tracksGo]
      rw [if_pos ho, Option.isSome_map']
      exact ih _ _ (htot o) (by have := hinc o; omega)
    · simp only [tracksGo]
      rw [if_neg ho]
      rfl

/-- A non-advancing echoed window with the reported total always ahead keeps
the loop running whatever the fuel. -/
theorem tracksGo_none (server : Int → PageResp)
    (hecho : ∀ o : Int, (server o).offset + (server o).limit ≤ o)
    (htot : ∀ o : Int, o < (server o).totalNumberOfItems) :
    ∀ (f : Nat) (o t : Int), o < t → tracksGo server f o t = none := by
  intro f
  induction f with
  | zero =>
    intro o t ho
    simp only [tracksGo]
    rw [if_pos ho]
  | succ f ih =>
    intro o t ho
    simp only [tracksGo]
    rw [if_pos ho, ih _ _ (by have := hecho o; have := htot o; omega)]
    rfl

end Tidal

/-! ## Claim theorems -/

namespace Tidal

/-- C1: for every entity kind, session and id, two concurrent `from_id` calls
with the same (kind, session, id, id_field_name) key issue exactly one reload
fetch and both receive the same entity instance; any later call with a key
seen before returns the previously stored result with no new network access,
even while the first reload is still pending. -/
theorem C1_identity_cache_single_flight (s : CacheState) (k : CacheKey) :
    (∀ r st, cacheLookup s k = some (r, st) → fromIdCached s k = (r, s))
    ∧ (cacheLookup s k = none →
        fromIdCached s k
          = (s.nextRef, ⟨(k, s.nextRef, .pending) :: s.entries, s.fetches + 1, s.nextRef + 1⟩)
        ∧ (fromIdCached s k).2.fetches = s.fetches + 1
        ∧ fromIdCached (fromIdCached s k).2 k = ((fromIdCached s k).1, (fromIdCached s k).2)
        ∧ cacheLookup (fromIdCached s k).2 k = some ((fromIdCached s k).1, .pending)
        ∧ fromIdCached (fetchFinish (fromIdCached s k).2 k) k
            = ((fromIdCached s k).1, fetchFinish (fromIdCached s k).2 k)) := by
  constructor
  · intro r st h
    unfold fromIdCached
    rw [h]
  · intro h
    have h1 : fromIdCached s k
        = (s.nextRef, ⟨(k, s.nextRef, .pending) :: s.entries, s.fetches + 1, s.nextRef + 1⟩) := by
      unfold fromIdCached
      rw [h]
    refine ⟨h1, ?_, ?_, ?_, ?_⟩
    · rw [h1]
    · rw [h1]
      simp [fromIdCached, cacheLookup, cacheFind]
    · rw [h1]
      simp [cacheLookup, cacheFind]
    · rw [h1]
      simp [fromIdCached, cacheLookup, cacheFind, fetchFinish, cacheMarkDone]

/-- Witness for C1 at the empty cache and a concrete Track key: the second
concurrent call returns the first call's instance with the state (and so the
fetch count, one) unchanged. -/
theorem C1_witness :
    fromIdCached (fromIdCached ⟨[], 0, 0⟩ ⟨trackDesc, 0, "42", "id"⟩).2 ⟨trackDesc, 0, "42", "id"⟩
      = ((fromIdCached ⟨[], 0, 0⟩ ⟨trackDesc, 0, "42", "id"⟩).1,
         (fromIdCached ⟨[], 0, 0⟩ ⟨trackDesc, 0, "42", "id"⟩).2)
    ∧ (fromIdCached ⟨[], 0, 0⟩ ⟨trackDesc, 0, "42", "id"⟩).2.fetches = 0 + 1 :=
  ⟨((C1_identity_cache_single_flight ⟨[], 0, 0⟩ ⟨trackDesc, 0, "42", "id"⟩).2 rfl).2.2.1,
   ((C1_identity_cache_single_flight ⟨[], 0, 0⟩ ⟨trackDesc, 0, "42", "id"⟩).2 rfl).2.1⟩

/-- C2: for every Track and every pair of tiers, `get_file_url` raises
`InsufficientAudioQuality` exactly when the tier the server reports as
delivered in the playback-info response is strictly below the required tier
under the audio-quality order — the shortfall is always surfaced. -/
theorem C2_insufficient_quality_iff (sp sr : AudioQuality) (rq pq : Option AudioQuality)
    (server : AudioQuality → Dict) (q : AudioQuality) (mv : JVal)
    (hm : streamManifestDecode (server (pq.getD sp)) = .ok mv)
    (hq : dlookup (server (pq.getD sp)) "audioQuality" = some (.str q.value)) :
    ((getFileUrl sp sr rq pq server).1 = .error .insufficientAudioQuality
      ↔ AudioQuality.lt q (rq.getD sr) = true) :=
  getFileUrl_iaq_iff sp sr rq pq server q mv hm hq

/-- Witness for C2: a server that delivers HIGH against required LOSSLESS
makes `get_file_url` fail with `InsufficientAudioQuality`. -/
theorem C2_witness :
    (getFileUrl .Normal .Normal (some .HiFi) none
      (fun _ => [("manifest", .str "eyJ1cmxzIjpbInUiXX0="), ("audioQuality", .str "HIGH")])).1
      = .error .insufficientAudioQuality :=
  (C2_insufficient_quality_iff .Normal .Normal (some .HiFi) none
    (fun _ => [("manifest", .str "eyJ1cmxzIjpbInUiXX0="), ("audioQuality", .str "HIGH")])
    .High (.obj [("urls", .arr [.str "u"])]) rfl rfl).mpr (by decide)

/-- C5: the audio-quality enumeration is strictly ordered with
Normal < High < HiFi < Master; the order is total and transitive, and it is
the order the negotiator's comparison uses: with a decoded response reporting
delivered tier `q`, `get_file_url` fails exactly when `q` is below the
required tier in this order. -/
theorem C5_quality_order_total :
    (AudioQuality.lt .Normal .High = true ∧ AudioQuality.lt .High .HiFi = true
      ∧ AudioQuality.lt .HiFi .Master = true)
    ∧ (∀ a b : AudioQuality, a = b ∨ AudioQuality.lt a b = true ∨ AudioQuality.lt b a = true)
    ∧ (∀ a b c : AudioQuality,
        AudioQuality.lt a b = true → AudioQuality.lt b c = true → AudioQuality.lt a c = true)
    ∧ (∀ (sp sr : AudioQuality) (rq pq : Option AudioQuality) (server : AudioQuality → Dict)
        (q : AudioQuality) (mv : JVal),
        streamManifestDecode (server (pq.getD sp)) = .ok mv →
        dlookup (server (pq.getD sp)) "audioQuality" = some (.str q.value) →
        ((getFileUrl sp sr rq pq server).1 = .error .insufficientAudioQuality
          ↔ AudioQuality.lt q (rq.getD sr) = true)) :=
  ⟨by decide, by decide, by decide,
   fun sp sr rq pq server q mv hm hq => getFileUrl_iaq_iff sp sr rq pq server q mv hm hq⟩

/-- Witness for C5: transitivity chains Normal below Master, and a LOW
delivery against required HI_RES is rejected by the negotiator through the
same order. -/
theorem C5_witness :
    AudioQuality.lt .Normal .Master = true
    ∧ (getFileUrl .Normal .Normal (some .Master) none
        (fun _ => [("manifest", .str "eyJ1cmxzIjpbInUiXX0="), ("audioQuality", .str "LOW")])).1
      = .error .insufficientAudioQuality :=
  ⟨C5_quality_order_total.2.2.1 .Normal .High .Master (by decide) (by decide),
   (C5_quality_order_total.2.2.2 .Normal .Normal (some .Master) none
     (fun _ => [("manifest", .str "eyJ1cmxzIjpbInUiXX0="), ("audioQuality", .str "LOW")])
     .Normal (.obj [("urls", .arr [.str "u"])]) rfl rfl).mpr (by decide)⟩

end Tidal

namespace Tidal

/-- C3: against a server whose every page reports the fixed total
`items.length` and echoes the requested window (offset `o`, limit `P`,
`P ≥ 1`), one `tracks()` traversal yields exactly one Track per item in
server order — all of `items`, in order — and the traversal begins with a
request at offset 0 (each call restarts there by construction). -/
theorem C3_pagination_yields_all_items (items : List Dict) (P : Nat)
    (server : Int → PageResp) (hP : 1 ≤ P)
    (hserver : ∀ o : Nat, server o = ⟨(items.drop o).take P, o, P, items.length⟩) :
    (tracksRequests server (items.length + 1) 0 1).head? = some 0
    ∧ tracksF server (items.length + 1) = some (items.map mkTrack) := by
  constructor
  · simp only [tracksRequests]
    rw [if_pos (by decide)]
    rfl
  · unfold tracksF
    simp only [tracksGo]
    rw [if_pos (by decide)]
    rw [show (0 : Int) = ((0 : Nat) : Int) from rfl, hserver 0]
    rw [show (((0 : Nat) : Int) + (P : Int)) = ((P : Nat) : Int) by push_cast; ring]
    rw [tracksGo_slices items P server hP hserver items.length P (by omega)]
    simp only [Option.map_some']
    rw [List.drop_zero, ← List.map_append, List.take_append_drop]

/-- Witness for C3: three items in pages of two yield exactly the three
tracks in order, starting at offset 0. -/
theorem C3_witness :
    (tracksRequests
      (fun z : Int =>
        (⟨(([[("id", JVal.num 1)], [("id", JVal.num 2)], [("id", JVal.num 3)]].drop z.toNat).take 2 :
            List Dict), z, 2, 3⟩ : PageResp)) 4 0 1).head? = some 0
    ∧ tracksF
        (fun z : Int =>
          (⟨(([[("id", JVal.num 1)], [("id", JVal.num 2)], [("id", JVal.num 3)]].drop z.toNat).take 2 :
              List Dict), z, 2, 3⟩ : PageResp)) 4
      = some (([[("id", JVal.num 1)], [("id", JVal.num 2)], [("id", JVal.num 3)]] : List Dict).map mkTrack) :=
  C3_pagination_yields_all_items
    [[("id", JVal.num 1)], [("id", JVal.num 2)], [("id", JVal.num 3)]] 2
    (fun z : Int =>
      (⟨(([[("id", JVal.num 1)], [("id", JVal.num 2)], [("id", JVal.num 3)]].drop z.toNat).take 2 :
          List Dict), z, 2, 3⟩ : PageResp))
    (by decide)
    (fun o => by
      dsimp only
      rw [Int.toNat_natCast]
      rfl)

/-- C4: the traversal terminates whenever the server's reported total stays
bounded and its echoed `offset + limit` strictly advances past the requested
offset each page; each step takes the next offset from the response's own
`offset` and `limit` fields (and logs the request at the locally tracked
offset); and a server whose echoed window never advances while its reported
total stays ahead makes the traversal non-terminating: no fuel completes it. -/
theorem C4_pagination_termination :
    (∀ (server : Int → PageResp) (B : Int), 1 ≤ B →
      (∀ o : Int, (server o).totalNumberOfItems ≤ B) →
      (∀ o : Int, o + 1 ≤ (server o).offset + (server o).limit) →
      (tracksGo server (B.toNat + 1) 0 1).isSome = true)
    ∧ (∀ (server : Int → PageResp) (f : Nat) (o t : Int), o < t →
        tracksGo server (f + 1) o t
          = (tracksGo server f ((server o).offset + (server o).limit)
              (server o).totalNumberOfItems).map
              (fun rest => (server o).items.map mkTrack ++ rest)
        ∧ tracksRequests server (f + 1) o t
            = o :: tracksRequests server f ((server o).offset + (server o).limit)
                (server o).totalNumberOfItems)
    ∧ (∀ server : Int → PageResp,
        (∀ o : Int, (server o).offset + (server o).limit ≤ o) →
        (∀ o : Int, o < (server o).totalNumberOfItems) →
        ∀ fuel : Nat, tracksGo server fuel 0 1 = none) := by
  refine ⟨?_, ?_, ?_⟩
  · intro server B hB htot hinc
    refine tracksGo_isSome server B htot hinc _ 0 1 hB ?_
    have := Int.toNat_of_nonneg (by omega : (0 : Int) ≤ B)
    omega
  · intro server f o t ho
    constructor
    · simp only [tracksGo]
      rw [if_pos ho]
    · simp only [tracksRequests]
      rw [if_pos ho]
  · intro server hecho htot fuel
    exact tracksGo_none server hecho htot fuel 0 1 (by decide)

/-- Witness for C4: a strictly advancing server terminates in two steps; a
server echoing the requested offset with limit 0 and reporting one more item
than the offset never terminates; and one unfolding at offset 0 shows the
request and the echoed next state. -/
theorem C4_witness :
    (tracksGo (fun o => ⟨[], o, 1, 0⟩) 2 0 1).isSome = true
    ∧ tracksGo (fun o => ⟨[], o, 0, o + 1⟩) 5 0 1 = none
    ∧ tracksRequests (fun o => ⟨[], o, 1, 0⟩) 1 0 1
        = 0 :: tracksRequests (fun o => ⟨[], o, 1, 0⟩) 0 (0 + 1) 0 :=
  ⟨C4_pagination_termination.1 (fun o => ⟨[], o, 1, 0⟩) 1 (by decide)
     (fun o => by show (0 : Int) ≤ 1; decide)
     (fun o => by show o + 1 ≤ o + 1; omega),
   C4_pagination_termination.2.2 (fun o => ⟨[], o, 0, o + 1⟩)
     (fun o => by show o + 0 ≤ o; omega)
     (fun o => by show o < o + 1; omega) 5,
   (C4_pagination_termination.2.1 (fun o => ⟨[], o, 1, 0⟩) 0 0 1 (by decide)).2⟩

/-- C6: `get_file_url` issues exactly one playback-info request — at the
preferred tier (defaulting to the session's), with fixed
`playbackmode=STREAM` and `assetpresentation=FULL` — and when the delivered
tier is not below the required tier it returns the first URL of the list
obtained by base64-decoding then JSON-decoding the response's `manifest`
field; the single-element request log shows it never re-requests. -/
theorem C6_single_request_first_url (sp sr : AudioQuality)
    (rq pq : Option AudioQuality) (server : AudioQuality → Dict) :
    (getFileUrl sp sr rq pq server).2 = [⟨"STREAM", "FULL", (pq.getD sp).value⟩]
    ∧ (∀ (ms : String) (bytes : List Nat) (mf : List (String × JVal)) (u : JVal)
        (rest : List JVal) (q : AudioQuality),
        dlookup (server (pq.getD sp)) "manifest" = some (.str ms) →
        b64decode ms = some bytes →
        jsonLoads bytes = some (.obj mf) →
        dlookup mf "urls" = some (.arr (u :: rest)) →
        dlookup (server (pq.getD sp)) "audioQuality" = some (.str q.value) →
        AudioQuality.lt q (rq.getD sr) = false →
        (getFileUrl sp sr rq pq server).1 = .ok u) := by
  constructor
  · rfl
  · intro ms bytes mf u rest q hms hb hj hurls hq hlt
    have hsm : streamManifestDecode (server (pq.getD sp)) = .ok (.obj mf) := by
      unfold streamManifestDecode
      rw [hms]
      dsimp only
      rw [hb]
      dsimp only
      rw [hj]
    unfold getFileUrl
    dsimp only
    rw [hsm, hq]
    dsimp only
    rw [fromValue_value]
    dsimp only
    rw [hlt]
    rw [if_neg (by simp)]
    unfold manifestFirstUrl jGet
    dsimp only
    rw [hurls]

/-- Witness for C6: with the session preferring LOSSLESS, the one request
carries STREAM/FULL/LOSSLESS, and the base64 manifest decoding to a JSON
object with one URL makes that URL the result. -/
theorem C6_witness :
    (getFileUrl .HiFi .Normal none none
      (fun _ => [("manifest", .str "eyJ1cmxzIjpbInUiXX0="), ("audioQuality", .str "LOSSLESS")])).2
      = [⟨"STREAM", "FULL", "LOSSLESS"⟩]
    ∧ (getFileUrl .HiFi .Normal none none
        (fun _ => [("manifest", .str "eyJ1cmxzIjpbInUiXX0="), ("audioQuality", .str "LOSSLESS")])).1
      = .ok (.str "u") :=
  ⟨(C6_single_request_first_url .HiFi .Normal none none
     (fun _ => [("manifest", .str "eyJ1cmxzIjpbInUiXX0="), ("audioQuality", .str "LOSSLESS")])).1,
   (C6_single_request_first_url .HiFi .Normal none none
     (fun _ => [("manifest", .str "eyJ1cmxzIjpbInUiXX0="), ("audioQuality", .str "LOSSLESS")])).2
     "eyJ1cmxzIjpbInUiXX0=" [123, 34, 117, 114, 108, 115, 34, 58, 91, 34, 117, 34, 93, 125]
     [("urls", .arr [.str "u"])] (.str "u") [] .HiFi rfl rfl rfl rfl rfl (by decide)⟩

end Tidal

namespace Tidal

/-- Counterexample to C7 as stated: on an entity whose mapping lacks the
camel-cased key `artistName`, attribute access `entity.artist_name` fails, but
with the key-lookup error (`KeyError`, carrying the camel-cased key) itself —
`__getattr__` propagates it unchanged — not with a missing-attribute
(`AttributeError`) condition. -/
theorem C7_counterexample :
    getAttrF [("title", JVal.str "X")] "artist_name" = .error (.keyError "artistName")
    ∧ isMissingAttrErr (getAttrF [("title", JVal.str "X")] "artist_name") = false :=
  ⟨rfl, rfl⟩

/-- C7 (amended): for every entity and field name whose camel-cased wire key
is absent from the field mapping, indexed access and attribute access both
fail with the key-lookup error carrying the camel-cased key (never a default
value; the attribute path propagates the lookup miss unchanged rather than
converting it to a missing-attribute condition), while membership via the
same camel-cased key is `False`. -/
theorem C7_lookup_miss_amended (d : Dict) (x : String)
    (hmiss : dlookup d (snakeToCamel x) = none) :
    getItemF d x = .error (.keyError (snakeToCamel x))
    ∧ getAttrF d x = .error (.keyError (snakeToCamel x))
    ∧ containsF d x = false := by
  refine ⟨?_, ?_, ?_⟩
  · unfold getItemF
    rw [hmiss]
  · unfold getAttrF getItemF
    rw [hmiss]
  · unfold containsF
    rw [hmiss]
    rfl

/-- Witness for C7 (amended) on a concrete mapping without `artistName`. -/
theorem C7_witness :
    getItemF [("title", JVal.str "X")] "artist_name" = .error (.keyError "artistName")
    ∧ getAttrF [("title", JVal.str "X")] "artist_name" = .error (.keyError "artistName")
    ∧ containsF [("title", JVal.str "X")] "artist_name" = false :=
  C7_lookup_miss_amended [("title", JVal.str "X")] "artist_name" rfl

/-- C8: `from_id` and `from_url` on the abstract `TidalObject` base raise
`NotImplementedError`; `from_url` on a concrete variant without a `urlname`
also raises `NotImplementedError`; and on a variant with a `urlname` it
extracts the id from the URL and delegates to `from_id`. -/
theorem C8_abstract_base_not_implemented (fetch : String → Dict) (url : String) :
    (∀ id, fromIdF tidalObjectDesc fetch id = .error .notImplementedError)
    ∧ fromUrlF tidalObjectDesc fetch url = .error .notImplementedError
    ∧ (∀ c : ClassDesc, c.isBase = false → c.urlname = none →
        fromUrlF c fetch url = .error .notImplementedError)
    ∧ (∀ (c : ClassDesc) (u : String), c.isBase = false → c.urlname = some u →
        fromUrlF c fetch url = (idFromUrlF url u).bind (fromIdF c fetch)) := by
  refine ⟨fun id => rfl, rfl, ?_, ?_⟩
  · intro c hb hu
    simp [fromUrlF, hb, hu]
  · intro c u hb hu
    simp [fromUrlF, hb, hu]

/-- Witness for C8 at a concrete fetch stub and Track URL. -/
theorem C8_witness :
    fromIdF tidalObjectDesc (fun _ => []) "42" = .error .notImplementedError
    ∧ fromUrlF tidalObjectDesc (fun _ => []) "https://tidal.com/track/42"
        = .error .notImplementedError
    ∧ fromUrlF ⟨false, none, "id"⟩ (fun _ => []) "https://tidal.com/track/42"
        = .error .notImplementedError
    ∧ fromUrlF trackDesc (fun _ => []) "https://tidal.com/track/42"
        = (idFromUrlF "https://tidal.com/track/42" "track").bind
            (fromIdF trackDesc (fun _ => [])) :=
  ⟨(C8_abstract_base_not_implemented (fun _ => []) "https://tidal.com/track/42").1 "42",
   (C8_abstract_base_not_implemented (fun _ => []) "https://tidal.com/track/42").2.1,
   (C8_abstract_base_not_implemented (fun _ => []) "https://tidal.com/track/42").2.2.1
     ⟨false, none, "id"⟩ rfl rfl,
   (C8_abstract_base_not_implemented (fun _ => []) "https://tidal.com/track/42").2.2.2
     trackDesc "track" rfl rfl⟩

/-- Counterexample to C9 as stated: a track whose own `copyright` is present
and non-null — the empty string — does not supply the `copyright` tag; the
guard tests Python truthiness, so the album's value is used instead. -/
theorem C9_counterexample :
    (getMetadata
      [("artist", .obj [("name", .str "A")]), ("artists", .arr []), ("title", .str "T"),
       ("volumeNumber", .num 1), ("trackNumber", .num 2), ("copyright", .str "")]
      [("artist", .obj [("name", .str "AA")]), ("title", .str "AT"), ("year", .num 2020),
       ("numberOfVolumes", .num 1), ("numberOfTracks", .num 10),
       ("copyright", .str "AlbumC")]).map (fun tags => tagStr tags "copyright")
      = .ok (some "AlbumC")
    ∧ tagStr
        [("artist", .obj [("name", .str "A")]), ("artists", .arr []), ("title", .str "T"),
         ("volumeNumber", .num 1), ("trackNumber", .num 2), ("copyright", .str "")]
        "copyright" = some ""
    ∧ decide ((some "AlbumC" : Option String) = some "") = false :=
  ⟨rfl, rfl, rfl⟩

/-- C9 (amended): whenever `get_metadata` succeeds, its `copyright` tag is
the track's own value when present and truthy, else the album's when present
and truthy, else absent, and `isrc` (track) and `upc` (album) are included
exactly when present and truthy; absence of all three is not an error (the
success hypothesis is independent of them). -/
theorem C9_metadata_optional_amended (track albumFull : Dict)
    (tags : List (String × JVal)) (h : getMetadata track albumFull = .ok tags) :
    dlookup tags "copyright" = copyrightExpected track albumFull
    ∧ dlookup tags "isrc" = condTag track "isrc"
    ∧ dlookup tags "upc" = condTag albumFull "upc" := by
  unfold getMetadata at h
  cases hm : metaMandatory track albumFull with
  | error e =>
    rw [hm] at h
    exact absurd h (by simp [Except.map])
  | ok b =>
    rw [hm] at h
    simp only [Except.map] at h
    injection h with h2
    subst h2
    have hbase1 : dlookup (metaBaseList b) "copyright" = none := by
      simp [metaBaseList, dlookup]
    have hbase2 : dlookup (metaBaseList b) "isrc" = none := by
      simp [metaBaseList, dlookup]
    have hbase3 : dlookup (metaBaseList b) "upc" = none := by
      simp [metaBaseList, dlookup]
    cases hc1 : condTag track "copyright" with
    | some v =>
      cases hc3 : condTag track "isrc" with
      | some w =>
        cases hc4 : condTag albumFull "upc" <;>
          simp [metaOptional, dlookup_append, dlookup, copyrightExpected,
            hc1, hc3, hbase1, hbase2, hbase3, *]
      | none =>
        cases hc4 : condTag albumFull "upc" <;>
          simp [metaOptional, dlookup_append, dlookup, copyrightExpected,
            hc1, hc3, hbase1, hbase2, hbase3, *]
    | none =>
      cases hc2 : condTag albumFull "copyright" with
      | some v =>
        cases hc3 : condTag track "isrc" <;> cases hc4 : condTag albumFull "upc" <;>
          simp [metaOptional, dlookup_append, dlookup, copyrightExpected,
            hc1, hc2, hbase1, hbase2, hbase3, *]
      | none =>
        cases hc3 : condTag track "isrc" <;> cases hc4 : condTag albumFull "upc" <;>
          simp [metaOptional, dlookup_append, dlookup, copyrightExpected,
            hc1, hc2, hbase1, hbase2, hbase3, *]

/-- Witness for C9 (amended) on concrete mappings that carry none of the
optional fields: `get_metadata` still succeeds and omits all three tags. -/
theorem C9_witness :
    dlookup
      [("artist", JVal.str "A"), ("title", JVal.str "T"), ("albumartist", JVal.str "AA"),
       ("album", JVal.str "AT"), ("date", JVal.str "2020"), ("discnumber", JVal.str "1"),
       ("disctotal", JVal.str "1"), ("tracknumber", JVal.str "2"),
       ("tracktotal", JVal.str "10")] "copyright"
      = copyrightExpected
          [("artist", .obj [("name", .str "A")]), ("artists", .arr []), ("title", .str "T"),
           ("volumeNumber", .num 1), ("trackNumber", .num 2)]
          [("artist", .obj [("name", .str "AA")]), ("title", .str "AT"), ("year", .num 2020),
           ("numberOfVolumes", .num 1), ("numberOfTracks", .num 10)]
    ∧ dlookup
        [("artist", JVal.str "A"), ("title", JVal.str "T"), ("albumartist", JVal.str "AA"),
         ("album", JVal.str "AT"), ("date", JVal.str "2020"), ("discnumber", JVal.str "1"),
         ("disctotal", JVal.str "1"), ("tracknumber", JVal.str "2"),
         ("tracktotal", JVal.str "10")] "isrc"
      = condTag
          [("artist", .obj [("name", .str "A")]), ("artists", .arr []), ("title", .str "T"),
           ("volumeNumber", .num 1), ("trackNumber", .num 2)] "isrc"
    ∧ dlookup
        [("artist", JVal.str "A"), ("title", JVal.str "T"), ("albumartist", JVal.str "AA"),
         ("album", JVal.str "AT"), ("date", JVal.str "2020"), ("discnumber", JVal.str "1"),
         ("disctotal", JVal.str "1"), ("tracknumber", JVal.str "2"),
         ("tracktotal", JVal.str "10")] "upc"
      = condTag
          [("artist", .obj [("name", .str "AA")]), ("title", .str "AT"), ("year", .num 2020),
           ("numberOfVolumes", .num 1), ("numberOfTracks", .num 10)] "upc" :=
  C9_metadata_optional_amended
    [("artist", .obj [("name", .str "A")]), ("artists", .arr []), ("title", .str "T"),
     ("volumeNumber", .num 1), ("trackNumber", .num 2)]
    [("artist", .obj [("name", .str "AA")]), ("title", .str "AT"), ("year", .num 2020),
     ("numberOfVolumes", .num 1), ("numberOfTracks", .num 10)]
    [("artist", JVal.str "A"), ("title", JVal.str "T"), ("albumartist", JVal.str "AA"),
     ("album", JVal.str "AT"), ("date", JVal.str "2020"), ("discnumber", JVal.str "1"),
     ("disctotal", JVal.str "1"), ("tracknumber", JVal.str "2"),
     ("tracktotal", JVal.str "10")] rfl

/-- C10: every `Track.album` access creates a fresh Album instance wrapping
the embedded album sub-document by reference; reloading that Album only
appends the decoded response to the heap and rebinds that one instance's
`dict` attribute, so the track's own field mapping (and every pre-existing
heap object, and every other Album instance) is unchanged, and an access
after the reload still wraps the original embedded sub-document. -/
theorem C10_album_property_frame (s : PyState) (i : Nat) (s1 : PyState) (resp : HDict)
    (h : trackAlbumAccess s = some (i, s1)) :
    i = s.albumRefs.length
    ∧ (s.heap[s.trackRef]?.bind (fun d => hlookup d (snakeToCamel "album")))
        = (s1.albumRefs[i]?).map HVal.ref
    ∧ (∀ j, j < s1.heap.length → (albumReloadHeap s1 i resp).heap[j]? = s1.heap[j]?)
    ∧ (albumReloadHeap s1 i resp).heap[s.trackRef]? = s.heap[s.trackRef]?
    ∧ (∀ j, j ≠ i → (albumReloadHeap s1 i resp).albumRefs[j]? = s1.albumRefs[j]?)
    ∧ (∀ i2 s2, trackAlbumAccess (albumReloadHeap s1 i resp) = some (i2, s2) →
        s2.albumRefs[i2]? = s1.albumRefs[i]?) := by
  unfold trackAlbumAccess at h
  cases hd : s.heap[s.trackRef]? with
  | none =>
    rw [hd] at h
    exact absurd h (by simp)
  | some d =>
    rw [hd] at h
    dsimp only at h
    cases hl : hlookup d (snakeToCamel "album") with
    | none =>
      rw [hl] at h
      simp at h
    | some hv =>
      rw [hl] at h
      cases hv with
      | ref r =>
        simp only [Option.some.injEq, Prod.mk.injEq] at h
        obtain ⟨hi, hs⟩ := h
        subst hi
        subst hs
        have hlt : s.trackRef < s.heap.length := by
          obtain ⟨h1, _⟩ := List.getElem?_eq_some.mp hd
          exact h1
        refine ⟨rfl, ?_, ?_, ?_, ?_, ?_⟩
        · simp [hd, hl, List.getElem?_concat_length]
        · intro j hj
          simp only [albumReloadHeap]
          rw [List.getElem?_append_left hj]
        · simp only [albumReloadHeap]
          rw [List.getElem?_append_left hlt]
          exact hd
        · intro j hj
          simp only [albumReloadHeap]
          rw [List.getElem?_set_ne (by omega)]
        · intro i2 s2 h2
          unfold trackAlbumAccess at h2
          simp only [albumReloadHeap] at h2
          rw [List.getElem?_append_left hlt, hd] at h2
          dsimp only at h2
          rw [hl] at h2
          simp only [Option.some.injEq, Prod.mk.injEq] at h2
          obtain ⟨hi2, hs2⟩ := h2
          subst hi2
          subst hs2
          dsimp only
          rw [List.getElem?_concat_length, List.getElem?_concat_length]
      | null =>
        simp at h
      | bool b =>
        simp at h
      | num n =>
        simp at h
      | str t =>
        simp at h

/-- Witness for C10 on a two-object heap (track at 0 with embedded album at
1): the first access is instance 0; after its reload the track mapping at
reference 0 is untouched and a further access still wraps reference 1. -/
theorem C10_witness :
    (0 = ([] : List Nat).length)
    ∧ (albumReloadHeap ⟨[[("album", HVal.ref 1)], [("title", HVal.str "E")]], 0, [1]⟩ 0
        [("upc", HVal.str "U")]).heap[0]?
      = ([[("album", HVal.ref 1)], [("title", HVal.str "E")]] : List HDict)[0]?
    ∧ (⟨[[("album", HVal.ref 1)], [("title", HVal.str "E")], [("upc", HVal.str "U")]], 0,
          [2, 1]⟩ : PyState).albumRefs[1]?
      = (⟨[[("album", HVal.ref 1)], [("title", HVal.str "E")]], 0, [1]⟩ : PyState).albumRefs[0]? :=
  ⟨(C10_album_property_frame ⟨[[("album", HVal.ref 1)], [("title", HVal.str "E")]], 0, []⟩ 0
     ⟨[[("album", HVal.ref 1)], [("title", HVal.str "E")]], 0, [1]⟩
     [("upc", HVal.str "U")] rfl).1,
   (C10_album_property_frame ⟨[[("album", HVal.ref 1)], [("title", HVal.str "E")]], 0, []⟩ 0
     ⟨[[("album", HVal.ref 1)], [("title", HVal.str "E")]], 0, [1]⟩
     [("upc", HVal.str "U")] rfl).2.2.2.1,
   (C10_album_property_frame ⟨[[("album", HVal.ref 1)], [("title", HVal.str "E")]], 0, []⟩ 0
     ⟨[[("album", HVal.ref 1)], [("title", HVal.str "E")]], 0, [1]⟩
     [("upc", HVal.str "U")] rfl).2.2.2.2.2 1
     ⟨[[("album", HVal.ref 1)], [("title", HVal.str "E")], [("upc", HVal.str "U")]], 0, [2, 1]⟩
     rfl⟩

end Tidal
